import Mathlib

/-!
Verification development for the Zaibten police-server duty engine
(`src/index.js`).  The definitions below are a shallow embedding of the
JavaScript source: strings are Lean strings manipulated through
character-list helpers that mirror the JavaScript string methods used by
the code, dates are millisecond timestamps (`Int`), and the Mongo
collection of duty records is a list queried in natural order
(`List.find?` models `findOne`).  Day boundaries use UTC in the model.
-/

/-- ASCII lower-casing of one character, mirroring `String.prototype.toLowerCase`
on the ASCII inputs the server handles. -/
def lowerChar (c : Char) : Char :=
  if c.isUpper then Char.ofNat (c.toNat + 32) else c

/-- Lower-case a character list. -/
def lowerL (l : List Char) : List Char := l.map lowerChar

/-- Lower-case a string (model of `toLowerCase`). -/
def sLower (s : String) : String := ⟨lowerL s.data⟩

/-- Trim whitespace from both ends of a character list (model of `trim`). -/
def trimL (l : List Char) : List Char :=
  ((l.dropWhile Char.isWhitespace).reverse.dropWhile Char.isWhitespace).reverse

/-- Trim a string (model of `String.prototype.trim`). -/
def sTrim (s : String) : String := ⟨trimL s.data⟩

/-- Remove every whitespace character (model of `replace(/\s+/g, "")`). -/
def stripWsL (l : List Char) : List Char :=
  l.filter (fun c => !c.isWhitespace)

/-- Does the second list start with the first? -/
def startsWithSeq : List Char → List Char → Bool
  | [], _ => true
  | _ :: _, [] => false
  | a :: as, b :: bs => a == b && startsWithSeq as bs

/-- Does the list end with the given suffix? -/
def endsWithSeq (suf l : List Char) : Bool :=
  startsWithSeq suf.reverse l.reverse

/-- Fuelled splitter behind `splitSeq`; fuel bounds the recursion depth so the
definition is structural and kernel-evaluable. -/
def splitFuel (sep : List Char) : Nat → List Char → List (List Char)
  | 0, l => [l]
  | _ + 1, [] => [[]]
  | n + 1, c :: cs =>
    if sep ≠ [] ∧ startsWithSeq sep (c :: cs) then
      [] :: splitFuel sep n ((c :: cs).drop sep.length)
    else
      match splitFuel sep n cs with
      | [] => [[c]]
      | h :: t => (c :: h) :: t

/-- Split a character list on a (non-empty) separator, mirroring
`String.prototype.split(sep)`. -/
def splitSeq (sep l : List Char) : List (List Char) :=
  splitFuel sep (l.length + 1) l

/-- Are all characters decimal digits? -/
def allDigits (l : List Char) : Bool := l.all Char.isDigit

/-- Value of an all-digit character list (model of `parseInt(s, 10)` on an
all-digit string). -/
def digitsToNat (l : List Char) : Nat :=
  l.foldl (fun acc c => acc * 10 + (c.toNat - 48)) 0

/-- Calendar day of a millisecond timestamp: the model of truncating a `Date`
to midnight (`setHours(0,0,0,0)`), with UTC day boundaries. -/
def dayOfTs (ts : Int) : Int := ts.fdiv 86400000

/-- A stored duty record: the fields of `dutySchema` (src/index.js lines
402-439).  Date-valued fields are optional millisecond timestamps; a missing
string field is modelled as the empty string, which the gating code treats
identically (both are falsy in JavaScript). -/
structure Duty where
  badgeNumber : String
  name : String
  rank : String
  status : String
  contact : String
  policeStation : String
  location : String
  xCoord : Option Int
  yCoord : Option Int
  shift : String
  dutyType : String
  dutyDate : Option Int
  fromDate : Option Int
  toDate : Option Int
  batchNumber : String
  remarks : String
  livexCoord : Option Int
  liveyCoord : Option Int
  dutyCategory : String
  totalpresent : String
  totalabsent : String
deriving Repr, DecidableEq

/-- The request body of POST /api/assign-duty (src/index.js lines 453-471),
with the three date fields already parsed to timestamps (`new Date(x)`). -/
structure AssignReq where
  badgeNumber : String
  name : String
  rank : String
  status : String
  contact : String
  policeStation : String
  location : String
  xCoord : Option Int
  yCoord : Option Int
  shift : String
  dutyType : String
  dutyDate : Int
  fromDate : Int
  toDate : Int
  batchNumber : String
  remarks : String
  dutyCategory : String
deriving Repr, DecidableEq

/-- Result of the assign-duty operation. -/
inductive AssignResult where
  | invalidState
  | dutyConflict
  | ok
deriving Repr, DecidableEq

/-- The conflict filter of the `multiple` branch (src/index.js lines 481-486):
same badge, batch and shift, with the stored `dutyDate` in
[fromDate, toDate]; a record with no `dutyDate` never matches the Mongo
range query. -/
def multipleConflictPred (req : AssignReq) (d : Duty) : Bool :=
  d.badgeNumber == req.badgeNumber &&
  (match d.dutyDate with
   | some t => req.fromDate ≤ t && t ≤ req.toDate
   | none => false) &&
  d.batchNumber == req.batchNumber &&
  d.shift == req.shift

/-- The conflict filter of the `single` branch (src/index.js lines 518-523):
same badge, batch and shift, with the stored `dutyDate` exactly equal to the
proposed timestamp. -/
def singleConflictPred (req : AssignReq) (d : Duty) : Bool :=
  d.badgeNumber == req.badgeNumber &&
  d.dutyDate == some req.dutyDate &&
  d.batchNumber == req.batchNumber &&
  d.shift == req.shift

/-- The record inserted by the `multiple` branch (src/index.js lines
494-514): `dutyDate` is set to `fromDate` and the range is stored. -/
def newMultipleDuty (req : AssignReq) : Duty :=
  { badgeNumber := req.badgeNumber, name := req.name, rank := req.rank,
    status := req.status, contact := req.contact,
    policeStation := req.policeStation, location := req.location,
    xCoord := req.xCoord, yCoord := req.yCoord, shift := req.shift,
    dutyType := req.dutyType, dutyDate := some req.fromDate,
    fromDate := some req.fromDate, toDate := some req.toDate,
    batchNumber := req.batchNumber, remarks := req.remarks,
    livexCoord := none, liveyCoord := none,
    dutyCategory := req.dutyCategory, totalpresent := "", totalabsent := "" }

/-- The record inserted by the `single` branch (src/index.js lines
532-550): only `dutyDate` is stored, no range. -/
def newSingleDuty (req : AssignReq) : Duty :=
  { badgeNumber := req.badgeNumber, name := req.name, rank := req.rank,
    status := req.status, contact := req.contact,
    policeStation := req.policeStation, location := req.location,
    xCoord := req.xCoord, yCoord := req.yCoord, shift := req.shift,
    dutyType := req.dutyType, dutyDate := some req.dutyDate,
    fromDate := none, toDate := none,
    batchNumber := req.batchNumber, remarks := req.remarks,
    livexCoord := none, liveyCoord := none,
    dutyCategory := req.dutyCategory, totalpresent := "", totalabsent := "" }

/-- POST /api/assign-duty (src/index.js lines 451-576): reject when the
proposed status is not "active" case-insensitively; otherwise run the
branch-specific conflict query and either refuse or append exactly one new
record to the store. -/
def assignDuty (store : List Duty) (req : AssignReq) :
    AssignResult × List Duty :=
  if sLower req.status ≠ "active" then
    (.invalidState, store)
  else if req.dutyType == "multiple" then
    match store.find? (multipleConflictPred req) with
    | some _ => (.dutyConflict, store)
    | none => (.ok, store ++ [newMultipleDuty req])
  else
    match store.find? (singleConflictPred req) with
    | some _ => (.dutyConflict, store)
    | none => (.ok, store ++ [newSingleDuty req])

/-- The inner `parseHour` of the dashboard handler (src/index.js lines
1281-1289): a bare-hour 12-hour form, the regex `(digits)(am|pm)` anchored at
both ends, with the pm offset and the 12am/12pm normalisation.  Minute-bearing
forms do not match. -/
def parseHourL (l : List Char) : Option Nat :=
  if endsWithSeq "am".data l || endsWithSeq "pm".data l then
    let digits := l.take (l.length - 2)
    if digits ≠ [] ∧ allDigits digits then
      let h := digitsToNat digits
      let pm := endsWithSeq "pm".data l
      if pm ∧ h ≠ 12 then some (h + 12)
      else if ¬ pm ∧ h = 12 then some 0
      else some h
    else none
  else none

/-- The predicate of the dashboard's `duties.find(...)` (src/index.js lines
1267-1307): requires a shift string and a duty date, discards dates before
today, normalises the shift by lower-casing and deleting whitespace, splits on
the literal "to", parses both sides with `parseHourL`, and then tests the
current hour against the window when the duty is dated today, while any
future-dated duty passes unconditionally. -/
def currentDutyPred (todayDay : Int) (currentHour : Nat) (d : Duty) : Bool :=
  if d.shift == "" then false
  else
    match d.dutyDate with
    | none => false
    | some ts =>
      if dayOfTs ts < todayDay then false
      else
        match splitSeq "to".data (stripWsL (lowerL d.shift.data)) with
        | startStr :: endStr :: _ =>
          if startStr = [] ∨ endStr = [] then false
          else
            match parseHourL startStr, parseHourL endStr with
            | some startHour, some endHour =>
              if dayOfTs ts = todayDay then
                if startHour ≤ endHour then
                  decide (startHour ≤ currentHour ∧ currentHour ≤ endHour)
                else
                  decide (currentHour ≥ startHour ∨ currentHour ≤ endHour)
              else true
            | _, _ => false
        | _ => false

/-- The dashboard's current-duty selection: the first record of the officer's
duty list satisfying `currentDutyPred` (JavaScript `Array.prototype.find`). -/
def resolveCurrentDuty (duties : List Duty) (todayDay : Int)
    (currentHour : Nat) : Option Duty :=
  duties.find? (currentDutyPred todayDay currentHour)

/-- The location and coordinate fields of the dashboard response
(src/index.js lines 1311-1321).  JavaScript `x || null` maps a missing record,
a missing field and the value 0 all to null, and an empty location string to
the fallback text. -/
structure DashboardView where
  location : String
  xCoord : Option Int
  yCoord : Option Int
deriving Repr, DecidableEq

/-- Coordinate projection `currentDuty?.c || null`. -/
def coordOrNull (c : Option Int) : Option Int :=
  match c with
  | some v => if v = 0 then none else some v
  | none => none

/-- The dashboard response projection for the current-duty fields. -/
def dashboardView (duties : List Duty) (todayDay : Int)
    (currentHour : Nat) : DashboardView :=
  match resolveCurrentDuty duties todayDay currentHour with
  | none => ⟨"No Active Duty", none, none⟩
  | some d =>
    ⟨if d.location == "" then "No Active Duty" else d.location,
     coordOrNull d.xCoord, coordOrNull d.yCoord⟩

/-- One side of a shift string parsed to a 24-hour (hour, minute) pair.  This
models the moment.js call `moment(part, ["h:mm a", "ha"])` of `parseShift`
(src/index.js lines 1334-1335) on its documented 12-hour format family: an
hour 1..12, an optional `:mm` minute part below 60, and an am/pm marker
(the input is already lower-cased by the caller). -/
def parseTime12L (l : List Char) : Option (Nat × Nat) :=
  if endsWithSeq "am".data l || endsWithSeq "pm".data l then
    let pm := endsWithSeq "pm".data l
    let body := trimL (l.take (l.length - 2))
    let conv : Nat → Nat → Option (Nat × Nat) := fun h m =>
      if 1 ≤ h ∧ h ≤ 12 ∧ m ≤ 59 then
        some (if pm then (if h = 12 then 12 else h + 12)
              else (if h = 12 then 0 else h), m)
      else none
    match splitSeq ":".data body with
    | [hs] =>
      if hs ≠ [] ∧ hs.length ≤ 2 ∧ allDigits hs then
        conv (digitsToNat hs) 0
      else none
    | [hs, ms] =>
      if hs ≠ [] ∧ hs.length ≤ 2 ∧ allDigits hs ∧
         ms ≠ [] ∧ ms.length ≤ 2 ∧ allDigits ms then
        conv (digitsToNat hs) (digitsToNat ms)
      else none
    | _ => none
  else none

/-- The two raw parsed instants of `parseShift` (src/index.js lines
1329-1337), as minutes of day, before the overnight adjustment: empty-string
guard, split on the literal " to ", exactly two parts, both parseable. -/
def parseShiftRaw (shiftStr : String) : Option (Nat × Nat) :=
  if shiftStr == "" then none
  else
    match splitSeq " to ".data (trimL (lowerL shiftStr.data)) with
    | [p1, p2] =>
      match parseTime12L (trimL p1), parseTime12L (trimL p2) with
      | some t1, some t2 => some (t1.1 * 60 + t1.2, t2.1 * 60 + t2.2)
      | _, _ => none
    | _ => none

/-- A parsed shift window: start and effective end in minutes (the end
carries +1440 when the shift wraps midnight), with the overnight flag. -/
structure ShiftWindow where
  startMin : Nat
  endMin : Nat
  overnight : Bool
deriving Repr, DecidableEq

/-- `parseShift` (src/index.js lines 1329-1341): raw parse followed by the
overnight rule `if (end.isBefore(start)) end.add(1, "day")`. -/
def parseShift (shiftStr : String) : Option ShiftWindow :=
  (parseShiftRaw shiftStr).map fun p =>
    if p.2 < p.1 then ⟨p.1, p.2 + 1440, true⟩ else ⟨p.1, p.2, false⟩

/-- Result of POST /api/live-location. -/
inductive LiveLocResult where
  | missingParams
  | notFound
  | trackingDisabled
  | shiftInactive
  | updated
deriving Repr, DecidableEq

/-- The Mongo filter of the live-location `findOne` (src/index.js lines
1415-1429): the badge's Active duty whose date coverage includes today — a
single duty dated inside [todayStart, todayEnd], or a non-single duty whose
[fromDate, toDate] range meets today.  `todayStart` is midnight of `todayDay`
and `todayEnd` is 23:59:59.999 of the same day, as produced by moment's
startOf/endOf day. -/
def activeTodayPred (todayDay : Int) (badge : String) (d : Duty) : Bool :=
  let todayStart : Int := todayDay * 86400000
  let todayEnd : Int := todayDay * 86400000 + 86399999
  d.badgeNumber == badge &&
  d.status == "Active" &&
  ((d.dutyType == "single" &&
    (match d.dutyDate with
     | some t => todayStart ≤ t && t ≤ todayEnd
     | none => false)) ||
   (d.dutyType != "single" &&
    (match d.fromDate with
     | some f => f ≤ todayEnd
     | none => false) &&
    (match d.toDate with
     | some t => todayStart ≤ t
     | none => false)))

/-- Replace the first record satisfying the predicate — the model of saving
the document returned by `findOne` back to the collection. -/
def replaceFirst (p : Duty → Bool) (d' : Duty) : List Duty → List Duty
  | [] => []
  | d :: ds => if p d then d' :: ds else d :: replaceFirst p d' ds

/-- Today's concrete shift start in seconds of day (src/index.js line 1445):
the window's start hour and minute applied to today. -/
def windowStartSec (w : ShiftWindow) : Nat := w.startMin * 60

/-- Today's concrete shift end in seconds (src/index.js lines 1446-1447):
rebuilt from the end instant's hour and minute of day (hence the modulus,
which recovers the time of day of a wrapped end), then pushed one day later
when it falls before the start. -/
def windowEndSec (w : ShiftWindow) : Nat :=
  let eRaw := (w.endMin % 1440) * 60
  if eRaw < windowStartSec w then eRaw + 86400 else eRaw

/-- The inclusive shift-window test `now.isBetween(shiftStart, shiftEnd,
null, "[]")` (src/index.js line 1449), at second granularity: the code zeroes
the seconds of both bounds and both bounds inherit the millisecond of `now`,
so the millisecond-level comparison coincides with this one. -/
def inShiftWindow (w : ShiftWindow) (nowSec : Nat) : Bool :=
  windowStartSec w ≤ nowSec && nowSec ≤ windowEndSec w

/-- POST /api/live-location (src/index.js lines 1402-1466): parameter guard,
Active-duty-today lookup, shift-presence and shift-parse gates, shift-window
gate, and finally the live-coordinate write.  `nowSec` is the current time of
day in seconds. -/
def updateLiveLocation (store : List Duty) (badge : String)
    (lx ly : Option Int) (todayDay : Int) (nowSec : Nat) :
    LiveLocResult × List Duty :=
  if badge == "" ∨ lx = none ∨ ly = none then
    (.missingParams, store)
  else
    match store.find? (activeTodayPred todayDay badge) with
    | none => (.notFound, store)
    | some d =>
      if sTrim d.shift == "" then
        (.trackingDisabled, store)
      else
        match parseShift d.shift with
        | none => (.trackingDisabled, store)
        | some w =>
          if inShiftWindow w nowSec then
            (.updated,
             replaceFirst (activeTodayPred todayDay badge)
               { d with livexCoord := lx, liveyCoord := ly } store)
          else
            (.shiftInactive, store)

/-- Result of POST /api/checkin: a missing record, or a classification
(`onDuty = true` when the reported distance is within 500 meters). -/
inductive CheckinResult where
  | notFound
  | checked (onDuty : Bool)
deriving Repr, DecidableEq

/-- The mutation the check-in handler applies to the located record
(src/index.js lines 1372-1382): remarks and status from the range
classification, live coordinates from the report, and `dutyDate` overwritten
with the request's `currentTime`. -/
def checkinMutate (cx cy : Int) (t : Int) (far : Bool) (d : Duty) : Duty :=
  { d with
    remarks := if far then "user is outside range" else "",
    status := if far then "off duty" else "on duty",
    livexCoord := some cx, liveyCoord := some cy,
    dutyDate := some t }

/-- POST /api/checkin (src/index.js lines 1358-1397).  The lookup is
`findOne({ badgeNumber })` — first record with the badge, with no status,
date or shift condition.  The haversine evaluator (floating-point
trigonometry, src/index.js lines 1344-1355) enters only through the
`distance > 500` comparison, so it is passed as the abstract collaborator
`dist`, applied to the record's fixed coordinates and the reported ones. -/
def checkIn (dist : Option Int → Option Int → Int → Int → Int)
    (store : List Duty) (badge : String) (cx cy : Int) (t : Int) :
    CheckinResult × List Duty :=
  match store.find? (fun d => d.badgeNumber == badge) with
  | none => (.notFound, store)
  | some d =>
    let far : Bool := decide (500 < dist d.xCoord d.yCoord cx cy)
    (.checked !far,
     replaceFirst (fun d => d.badgeNumber == badge)
       (checkinMutate cx cy t far d) store)

/-- A sample stored duty: badge "B100", batch "1", shift "9am to 5pm",
`dutyDate` at 05:00 of day 10 (10 * 86400000 + 18000000 ms). -/
def dutyAtFive : Duty :=
  { badgeNumber := "B100", name := "N", rank := "Constable",
    status := "Active", contact := "", policeStation := "", location := "HQ",
    xCoord := some 5, yCoord := some 6, shift := "9am to 5pm",
    dutyType := "single", dutyDate := some 882000000, fromDate := none,
    toDate := none, batchNumber := "1", remarks := "", livexCoord := none,
    liveyCoord := none, dutyCategory := "Other", totalpresent := "",
    totalabsent := "" }

/-- The same scope with `dutyDate` at midnight of day 10 (864000000 ms). -/
def dutyAtMidnight : Duty := { dutyAtFive with dutyDate := some 864000000 }

/-- Same officer, same day at midnight, different shift string. -/
def dutyOtherShift : Duty :=
  { dutyAtFive with shift := "6pm to 9pm", dutyDate := some 864000000 }

/-- A proposed single assignment for badge "B100", batch "1", shift
"9am to 5pm", dated midnight of day 10. -/
def reqSingleDay10 : AssignReq :=
  { badgeNumber := "B100", name := "N", rank := "Constable",
    status := "Active", contact := "", policeStation := "", location := "HQ",
    xCoord := some 5, yCoord := some 6, shift := "9am to 5pm",
    dutyType := "single", dutyDate := 864000000, fromDate := 0, toDate := 0,
    batchNumber := "1", remarks := "", dutyCategory := "Other" }

/-- The same proposal with a non-active status. -/
def reqPending : AssignReq := { reqSingleDay10 with status := "Pending" }

/-- A proposed multiple assignment covering days 9..12. -/
def reqMultiple9to12 : AssignReq :=
  { reqSingleDay10 with
    dutyType := "multiple", fromDate := 777600000, toDate := 1036800000 }

/-- Same scope, dated midnight of day 100 (8640000000 ms), Active single. -/
def dutyDay100 : Duty := { dutyAtFive with dutyDate := some 8640000000 }

/-- A duty dated day 100 whose shift carries minutes ("6:30pm to 9:30pm"). -/
def dutyMinuteShift : Duty :=
  { dutyAtFive with shift := "6:30pm to 9:30pm", dutyDate := some 8640000000 }

/-- A duty dated day 100 with an unparseable shift string. -/
def dutyBadShift : Duty :=
  { dutyAtFive with shift := "night watch", dutyDate := some 8640000000 }

/-- Same scope, dated midnight of day 200 (17280000000 ms): a strictly
future assignment when today is day 100. -/
def dutyDay200 : Duty := { dutyAtFive with dutyDate := some 17280000000 }

/-- A concrete stand-in for the haversine collaborator: constant distance 0
(so every report classifies as within range). -/
def constDist : Option Int → Option Int → Int → Int → Int :=
  fun _ _ _ _ => 0

/- End of definitions; theorems follow. -/

/-- The multiple-branch conflict filter unfolded to propositions. -/
theorem multipleConflictPred_iff (req : AssignReq) (d : Duty) :
    multipleConflictPred req d = true ↔
      d.badgeNumber = req.badgeNumber ∧
      (∃ t, d.dutyDate = some t ∧ req.fromDate ≤ t ∧ t ≤ req.toDate) ∧
      d.batchNumber = req.batchNumber ∧ d.shift = req.shift := by
  cases h : d.dutyDate with
  | none => simp [multipleConflictPred, h]
  | some t =>
    simp only [multipleConflictPred, h, Bool.and_eq_true, beq_iff_eq,
      decide_eq_true_eq, Option.some.injEq]
    constructor
    · rintro ⟨⟨⟨h1, h2, h3⟩, h4⟩, h5⟩
      exact ⟨h1, ⟨t, rfl, h2, h3⟩, h4, h5⟩
    · rintro ⟨h1, ⟨t', ht', h2, h3⟩, h4, h5⟩
      cases ht'
      exact ⟨⟨⟨h1, h2, h3⟩, h4⟩, h5⟩

/-- The single-branch conflict filter unfolded to propositions. -/
theorem singleConflictPred_iff (req : AssignReq) (d : Duty) :
    singleConflictPred req d = true ↔
      d.badgeNumber = req.badgeNumber ∧ d.dutyDate = some req.dutyDate ∧
      d.batchNumber = req.batchNumber ∧ d.shift = req.shift := by
  simp only [singleConflictPred, Bool.and_eq_true, beq_iff_eq]
  tauto

/-- C3: a proposal whose status is not "active" case-insensitively fails with
INVALID_STATE, with the store untouched (no lookup result can influence the
outcome and no record is written). -/
theorem assignDuty_inactiveStatus (store : List Duty) (req : AssignReq)
    (h : sLower req.status ≠ "active") :
    assignDuty store req = (.invalidState, store) := by
  simp [assignDuty, h]

/-- Witness for `assignDuty_inactiveStatus` at status "Pending". -/
theorem assignDuty_inactiveStatus_witness :
    sLower reqPending.status ≠ "active" ∧
    assignDuty [dutyAtMidnight] reqPending = (.invalidState, [dutyAtMidnight]) :=
  ⟨by decide, assignDuty_inactiveStatus [dutyAtMidnight] reqPending (by decide)⟩

/-- C4: assignDuty is atomic — a DUTY_CONFLICT outcome leaves the store
unchanged, and a successful outcome appends exactly one record, carrying the
whole [fromDate, toDate] range for a multiple proposal (with `dutyDate` set
to `fromDate`) and the single day for a single proposal. -/
theorem assignDuty_atomic (store : List Duty) (req : AssignReq) :
    ((assignDuty store req).1 = .dutyConflict →
      (assignDuty store req).2 = store) ∧
    ((assignDuty store req).1 = .ok → ∃ d,
      (assignDuty store req).2 = store ++ [d] ∧
      (req.dutyType = "multiple" →
        d.dutyDate = some req.fromDate ∧ d.fromDate = some req.fromDate ∧
        d.toDate = some req.toDate) ∧
      (req.dutyType ≠ "multiple" →
        d.dutyDate = some req.dutyDate ∧ d.fromDate = none ∧
        d.toDate = none)) := by
  unfold assignDuty
  by_cases hs : sLower req.status ≠ "active"
  · simp [hs]
  · rw [if_neg hs]
    by_cases hm : req.dutyType = "multiple"
    · rw [if_pos (beq_iff_eq.mpr hm)]
      cases hfind : store.find? (multipleConflictPred req) with
      | some d => simp
      | none =>
        refine ⟨by simp, fun _ => ⟨newMultipleDuty req, rfl, fun _ => ?_, fun hne => absurd hm hne⟩⟩
        exact ⟨rfl, rfl, rfl⟩
    · rw [if_neg (by simpa using hm)]
      cases hfind : store.find? (singleConflictPred req) with
      | some d => simp
      | none =>
        refine ⟨by simp, fun _ => ⟨newSingleDuty req, rfl, fun h => absurd h hm, fun _ => ?_⟩⟩
        exact ⟨rfl, rfl, rfl⟩

/-- Witness for `assignDuty_atomic`: a successful single assignment into an
empty store appends exactly one single-day record. -/
theorem assignDuty_atomic_witness :
    ∃ d, (assignDuty [] reqSingleDay10).2 = [] ++ [d] ∧
      (reqSingleDay10.dutyType = "multiple" →
        d.dutyDate = some reqSingleDay10.fromDate ∧
        d.fromDate = some reqSingleDay10.fromDate ∧
        d.toDate = some reqSingleDay10.toDate) ∧
      (reqSingleDay10.dutyType ≠ "multiple" →
        d.dutyDate = some reqSingleDay10.dutyDate ∧ d.fromDate = none ∧
        d.toDate = none) :=
  (assignDuty_atomic [] reqSingleDay10).2 (by decide)

/-- C2: a stored assignment that differs from the proposal in badge number,
batch identifier, or shift string never causes DUTY_CONFLICT: if every record
in the store differs in at least one of the three, the call cannot return
DUTY_CONFLICT, regardless of the dates involved. -/
theorem assignDuty_scopeTriple (store : List Duty) (req : AssignReq)
    (h : ∀ d ∈ store, d.badgeNumber ≠ req.badgeNumber ∨
      d.batchNumber ≠ req.batchNumber ∨ d.shift ≠ req.shift) :
    (assignDuty store req).1 ≠ .dutyConflict := by
  have hmul : store.find? (multipleConflictPred req) = none := by
    rw [List.find?_eq_none]
    intro d hd hpred
    rcases (multipleConflictPred_iff req d).mp hpred with ⟨h1, _, h3, h4⟩
    rcases h d hd with hc | hc | hc <;> exact hc (by assumption)
  have hsingle : store.find? (singleConflictPred req) = none := by
    rw [List.find?_eq_none]
    intro d hd hpred
    rcases (singleConflictPred_iff req d).mp hpred with ⟨h1, _, h3, h4⟩
    rcases h d hd with hc | hc | hc <;> exact hc (by assumption)
  unfold assignDuty
  by_cases hs : sLower req.status ≠ "active"
  · simp [hs]
  · rw [if_neg hs]
    by_cases hm : req.dutyType = "multiple"
    · rw [if_pos (beq_iff_eq.mpr hm), hmul]
      simp
    · rw [if_neg (by simpa using hm), hsingle]
      simp

/-- Witness for `assignDuty_scopeTriple`: a same-officer same-day record with
a different shift string does not block the assignment. -/
theorem assignDuty_scopeTriple_witness :
    (assignDuty [dutyOtherShift] reqSingleDay10).1 ≠ .dutyConflict :=
  assignDuty_scopeTriple [dutyOtherShift] reqSingleDay10 (by decide)

/-- C1 (amended): for an active proposal, the multiple branch conflicts
exactly when a same-scope record's `dutyDate` timestamp lies in
[fromDate, toDate], and the single branch conflicts exactly when a same-scope
record's `dutyDate` timestamp equals the proposed timestamp exactly —
full-timestamp equality, not calendar-date equality. -/
theorem assignDuty_conflict_iff (store : List Duty) (req : AssignReq)
    (hact : sLower req.status = "active") :
    (req.dutyType = "multiple" →
      ((assignDuty store req).1 = .dutyConflict ↔
        ∃ d ∈ store, d.badgeNumber = req.badgeNumber ∧
          d.batchNumber = req.batchNumber ∧ d.shift = req.shift ∧
          ∃ t, d.dutyDate = some t ∧ req.fromDate ≤ t ∧ t ≤ req.toDate)) ∧
    (req.dutyType ≠ "multiple" →
      ((assignDuty store req).1 = .dutyConflict ↔
        ∃ d ∈ store, d.badgeNumber = req.badgeNumber ∧
          d.batchNumber = req.batchNumber ∧ d.shift = req.shift ∧
          d.dutyDate = some req.dutyDate)) := by
  have hs : ¬ sLower req.status ≠ "active" := fun hc => hc hact
  constructor
  · intro hm
    unfold assignDuty
    rw [if_neg hs, if_pos (beq_iff_eq.mpr hm)]
    cases hfind : store.find? (multipleConflictPred req) with
    | some d =>
      have hmem := List.mem_of_find?_eq_some hfind
      have hpred := List.find?_some hfind
      rcases (multipleConflictPred_iff req d).mp hpred with ⟨h1, ⟨t, ht, h2⟩, h3, h4⟩
      simp only [true_iff]
      exact ⟨d, hmem, h1, h3, h4, t, ht, h2⟩
    | none =>
      have hnone := List.find?_eq_none.mp hfind
      simp only [reduceCtorEq, false_iff]
      rintro ⟨d, hmem, h1, h3, h4, t, ht, h5, h6⟩
      exact hnone d hmem ((multipleConflictPred_iff req d).mpr ⟨h1, ⟨t, ht, h5, h6⟩, h3, h4⟩)
  · intro hm
    unfold assignDuty
    rw [if_neg hs, if_neg (by simpa using hm)]
    cases hfind : store.find? (singleConflictPred req) with
    | some d =>
      have hmem := List.mem_of_find?_eq_some hfind
      have hpred := List.find?_some hfind
      rcases (singleConflictPred_iff req d).mp hpred with ⟨h1, h2, h3, h4⟩
      simp only [true_iff]
      exact ⟨d, hmem, h1, h3, h4, h2⟩
    | none =>
      have hnone := List.find?_eq_none.mp hfind
      simp only [reduceCtorEq, false_iff]
      rintro ⟨d, hmem, h1, h3, h4, h2⟩
      exact hnone d hmem ((singleConflictPred_iff req d).mpr ⟨h1, h2, h3, h4⟩)

/-- Witness for `assignDuty_conflict_iff`: an exact-timestamp duplicate of the
single proposal is reported as a conflict. -/
theorem assignDuty_conflict_iff_witness :
    (assignDuty [dutyAtMidnight] reqSingleDay10).1 = .dutyConflict := by
  have h := (assignDuty_conflict_iff [dutyAtMidnight] reqSingleDay10
    (by decide)).2 (by decide)
  exact h.mpr ⟨dutyAtMidnight, by decide, by decide, by decide, by decide, by decide⟩

/-- C1 counterexample: a stored duty at 05:00 of day 10 and a proposal at
midnight of day 10 share the calendar date, the scope triple matches and the
status is active, yet the single branch reports no conflict — the code
compares full timestamps, not calendar dates. -/
theorem assignDuty_calendarEquality_cex :
    sLower reqSingleDay10.status = "active" ∧
    reqSingleDay10.dutyType = "single" ∧
    dutyAtFive.badgeNumber = reqSingleDay10.badgeNumber ∧
    dutyAtFive.batchNumber = reqSingleDay10.batchNumber ∧
    dutyAtFive.shift = reqSingleDay10.shift ∧
    dutyAtFive.dutyDate = some 882000000 ∧
    dayOfTs 882000000 = dayOfTs reqSingleDay10.dutyDate ∧
    (assignDuty [dutyAtFive] reqSingleDay10).1 = .ok := by
  decide

/-- C8: the Shift Parser maps "9am to 5pm" to 09:00..17:00 with no overnight
flag; whenever the raw parsed end instant precedes the raw start, the window
is flagged overnight with the effective end one day (1440 minutes) later; and
a string not in the "start to end" 12-hour format fails to parse. -/
theorem parseShift_spec :
    parseShift "9am to 5pm" = some ⟨540, 1020, false⟩ ∧
    (∀ s a b, parseShiftRaw s = some (a, b) → b < a →
      parseShift s = some ⟨a, b + 1440, true⟩) ∧
    (∀ s a b, parseShiftRaw s = some (a, b) → ¬ b < a →
      parseShift s = some ⟨a, b, false⟩) ∧
    parseShift "garbage" = none := by
  refine ⟨by decide, ?_, ?_, by decide⟩
  · intro s a b h hlt
    simp [parseShift, h, hlt]
  · intro s a b h hlt
    simp [parseShift, h, hlt]

/-- Witness for `parseShift_spec`: "9pm to 6am" parses raw to 21:00/06:00 and
is flagged overnight with effective end 30:00 (next-day 06:00). -/
theorem parseShift_spec_witness :
    parseShiftRaw "9pm to 6am" = some (1260, 360) ∧
    parseShift "9pm to 6am" = some ⟨1260, 1800, true⟩ :=
  ⟨by decide, parseShift_spec.2.1 "9pm to 6am" 1260 360 (by decide) (by decide)⟩

/-- C6 counterexample: "6:30pm to 9:30pm" is parseable by the Shift Parser
(18:30..21:30), the current hour 19 lies inside [18, 21], the duty is dated
today (day 100), yet the dashboard resolver does not deem it current: its
inner bare-hour parser rejects minute-bearing forms. -/
theorem resolver_minuteShift_cex :
    parseShift "6:30pm to 9:30pm" = some ⟨1110, 1290, false⟩ ∧
    1110 / 60 = 18 ∧ 1290 / 60 = 21 ∧
    dutyMinuteShift.dutyDate = some 8640000000 ∧
    dayOfTs 8640000000 = 100 ∧
    (18 ≤ 19 ∧ 19 ≤ 21) ∧
    currentDutyPred 100 19 dutyMinuteShift = false := by
  decide

/-- C6 (amended): for a duty dated today whose shift, after lower-casing and
whitespace removal, splits on "to" into two parts accepted by the resolver's
bare-hour parser, membership is the hour test on [startHour, endHour], with
the wrap-around disjunction when startHour exceeds endHour; minutes never
enter the test because minute-bearing parts are rejected by that parser. -/
theorem resolver_today_hourWindow (todayDay : Int) (currentHour : Nat)
    (d : Duty) (ts : Int) (a b : List Char) (rest : List (List Char))
    (sh eh : Nat)
    (hts : d.dutyDate = some ts) (hday : dayOfTs ts = todayDay)
    (hsplit : splitSeq "to".data (stripWsL (lowerL d.shift.data)) =
      a :: b :: rest)
    (ha : parseHourL a = some sh) (hb : parseHourL b = some eh) :
    currentDutyPred todayDay currentHour d = true ↔
      (if sh ≤ eh then sh ≤ currentHour ∧ currentHour ≤ eh
       else currentHour ≥ sh ∨ currentHour ≤ eh) := by
  have hnilHour : parseHourL ([] : List Char) = none := rfl
  have hane : a ≠ [] := by
    intro hae
    rw [hae, hnilHour] at ha
    exact absurd ha (by simp)
  have hbne : b ≠ [] := by
    intro hbe
    rw [hbe, hnilHour] at hb
    exact absurd hb (by simp)
  by_cases hsh : d.shift = ""
  · exfalso
    rw [hsh] at hsplit
    have hempty : splitSeq "to".data (stripWsL (lowerL ("" : String).data)) =
        [[]] := by decide
    rw [hempty] at hsplit
    simp at hsplit
  · have hnlt : ¬ dayOfTs ts < todayDay := by omega
    unfold currentDutyPred
    simp only [hts, hsplit, ha, hb]
    rw [if_neg (by simpa using hsh), if_neg hnlt,
      if_neg (by simp [hane, hbne]), if_pos hday]
    by_cases hle : sh ≤ eh
    · rw [if_pos hle, if_pos hle]
      simp
    · rw [if_neg hle, if_neg hle]
      simp

/-- Witness for `resolver_today_hourWindow`: a day-100 duty with shift
"9am to 5pm" evaluated at hour 10 is deemed current. -/
theorem resolver_today_hourWindow_witness :
    currentDutyPred 100 10 dutyDay100 = true :=
  (resolver_today_hourWindow 100 10 dutyDay100 8640000000
    "9am".data "5pm".data [] 9 17 (by decide) (by decide) (by decide)
    (by decide) (by decide)).mpr (by decide)

/-- A record the resolver deems current carries a duty date and that date is
not before today. -/
theorem currentDutyPred_date_ge (todayDay : Int) (hour : Nat) (d : Duty)
    (hp : currentDutyPred todayDay hour d = true) :
    ∃ ts, d.dutyDate = some ts ∧ todayDay ≤ dayOfTs ts := by
  unfold currentDutyPred at hp
  by_cases hsh : d.shift = ""
  · rw [if_pos (beq_iff_eq.mpr hsh)] at hp
    exact absurd hp (by simp)
  · rw [if_neg (by simpa using hsh)] at hp
    cases hdd : d.dutyDate with
    | none =>
      simp only [hdd] at hp
      exact absurd hp (by simp)
    | some ts =>
      simp only [hdd] at hp
      refine ⟨ts, rfl, ?_⟩
      by_cases hlt : dayOfTs ts < todayDay
      · rw [if_pos hlt] at hp
        exact absurd hp (by simp)
      · omega

/-- C7: assignments dated strictly before today are never current; a record
the resolver surfaces always has a date not before today, and strictly after
today whenever no same-day record qualifies; a record dated strictly after
today whose shift the resolver can parse is current unconditionally — the
current hour plays no role — so such an assignment in the list guarantees
something is surfaced; and when nothing qualifies the dashboard falls back
to the location "No Active Duty" with null coordinates. -/
theorem resolver_dateFence (duties : List Duty) (todayDay : Int)
    (hour : Nat) :
    (∀ d ∈ duties, ∀ ts, d.dutyDate = some ts → dayOfTs ts < todayDay →
      currentDutyPred todayDay hour d = false) ∧
    (∀ d, resolveCurrentDuty duties todayDay hour = some d →
      ∃ ts, d.dutyDate = some ts ∧ todayDay ≤ dayOfTs ts ∧
        ((∀ e ∈ duties, ∀ ts2, e.dutyDate = some ts2 →
            dayOfTs ts2 = todayDay →
            currentDutyPred todayDay hour e = false) →
          todayDay < dayOfTs ts)) ∧
    (∀ d : Duty, ∀ ts : Int, ∀ a b : List Char, ∀ rest : List (List Char),
      ∀ sh eh : Nat, d.dutyDate = some ts → todayDay < dayOfTs ts →
      splitSeq "to".data (stripWsL (lowerL d.shift.data)) = a :: b :: rest →
      parseHourL a = some sh → parseHourL b = some eh →
      currentDutyPred todayDay hour d = true) ∧
    (∀ e ∈ duties, currentDutyPred todayDay hour e = true →
      resolveCurrentDuty duties todayDay hour ≠ none) ∧
    (resolveCurrentDuty duties todayDay hour = none →
      dashboardView duties todayDay hour = ⟨"No Active Duty", none, none⟩) := by
  refine ⟨?_, ?_, ?_, ?_, ?_⟩
  · intro d _ ts hts hlt
    cases hb : currentDutyPred todayDay hour d with
    | false => rfl
    | true =>
      exfalso
      obtain ⟨ts2, hts2, hge⟩ := currentDutyPred_date_ge todayDay hour d hb
      rw [hts] at hts2
      cases hts2
      omega
  · intro d hfind
    have hmem := List.mem_of_find?_eq_some hfind
    have hpred := List.find?_some hfind
    obtain ⟨ts, hts, hge⟩ := currentDutyPred_date_ge todayDay hour d hpred
    refine ⟨ts, hts, hge, ?_⟩
    intro hall
    rcases lt_or_eq_of_le hge with hlt | heq
    · exact hlt
    · exact absurd hpred (by simp [hall d hmem ts hts heq.symm])
  · intro d ts a b rest sh eh hts hfut hsplit ha hb
    have hnilHour : parseHourL ([] : List Char) = none := rfl
    have hane : a ≠ [] := by
      intro hae
      rw [hae, hnilHour] at ha
      exact absurd ha (by simp)
    have hbne : b ≠ [] := by
      intro hbe
      rw [hbe, hnilHour] at hb
      exact absurd hb (by simp)
    by_cases hsh : d.shift = ""
    · exfalso
      rw [hsh] at hsplit
      have hempty : splitSeq "to".data (stripWsL (lowerL ("" : String).data)) =
          [[]] := by decide
      rw [hempty] at hsplit
      simp at hsplit
    · have hnlt : ¬ dayOfTs ts < todayDay := by omega
      have hnea : ¬ dayOfTs ts = todayDay := by omega
      unfold currentDutyPred
      simp only [hts, hsplit, ha, hb]
      rw [if_neg (by simpa using hsh), if_neg hnlt,
        if_neg (by simp [hane, hbne]), if_neg hnea]
  · intro e he hp hnone
    exact absurd hp (by simpa using List.find?_eq_none.mp hnone e he)
  · intro hnone
    unfold dashboardView
    rw [hnone]

/-- Witness for `resolver_dateFence`: on day 100 at hour 23 the day-200 duty
qualifies unconditionally (hour 23 is outside its 9am-5pm window) and is
surfaced past the stale day-10 record, while a store holding only the day-10
record yields the dashboard fallback. -/
theorem resolver_dateFence_witness :
    currentDutyPred 100 23 dutyDay200 = true ∧
    resolveCurrentDuty [dutyAtFive, dutyDay200] 100 23 ≠ none ∧
    resolveCurrentDuty [dutyAtFive, dutyDay200] 100 23 = some dutyDay200 ∧
    dashboardView [dutyAtFive] 100 23 = ⟨"No Active Duty", none, none⟩ := by
  have h := resolver_dateFence [dutyAtFive, dutyDay200] 100 23
  have hpred := h.2.2.1 dutyDay200 17280000000 "9am".data "5pm".data [] 9 17
    (by decide) (by decide) (by decide) (by decide) (by decide)
  exact ⟨hpred, h.2.2.2.1 dutyDay200 (by decide) hpred, by decide,
    (resolver_dateFence [dutyAtFive] 100 23).2.2.2.2 (by decide)⟩

/-- C9: once the live-location endpoint has located the Active duty covering
today, a blank shift or an unparseable shift yields TRACKING_DISABLED with no
write; a parseable shift with the current instant outside today's inclusive
[shiftStart, shiftEnd] window yields SHIFT_INACTIVE with no write; and inside
the window only the two live-coordinate fields of the located record change —
no distance check, no status, remarks or date mutation. -/
theorem liveLocation_gates (store : List Duty) (badge : String) (x y : Int)
    (todayDay : Int) (nowSec : Nat) (d : Duty) (hb : badge ≠ "")
    (hf : store.find? (activeTodayPred todayDay badge) = some d) :
    (sTrim d.shift = "" →
      updateLiveLocation store badge (some x) (some y) todayDay nowSec =
        (.trackingDisabled, store)) ∧
    (parseShift d.shift = none →
      updateLiveLocation store badge (some x) (some y) todayDay nowSec =
        (.trackingDisabled, store)) ∧
    (∀ w, parseShift d.shift = some w → sTrim d.shift ≠ "" →
      (inShiftWindow w nowSec = false →
        updateLiveLocation store badge (some x) (some y) todayDay nowSec =
          (.shiftInactive, store)) ∧
      (inShiftWindow w nowSec = true →
        updateLiveLocation store badge (some x) (some y) todayDay nowSec =
          (.updated, replaceFirst (activeTodayPred todayDay badge)
            { d with livexCoord := some x, liveyCoord := some y } store) ∧
        ({ d with livexCoord := some x, liveyCoord := some y }).status =
          d.status ∧
        ({ d with livexCoord := some x, liveyCoord := some y }).remarks =
          d.remarks ∧
        ({ d with livexCoord := some x, liveyCoord := some y }).dutyDate =
          d.dutyDate)) := by
  have hguard : ¬ ((badge == "") = true ∨ (some x : Option Int) = none ∨
      (some y : Option Int) = none) := by
    simp [hb]
  refine ⟨?_, ?_, ?_⟩
  · intro htrim
    unfold updateLiveLocation
    rw [if_neg hguard]
    simp only [hf]
    rw [if_pos (beq_iff_eq.mpr htrim)]
  · intro hps
    unfold updateLiveLocation
    rw [if_neg hguard]
    simp only [hf]
    by_cases htrim : sTrim d.shift = ""
    · rw [if_pos (beq_iff_eq.mpr htrim)]
    · rw [if_neg (by simpa using htrim)]
      simp only [hps]
  · intro w hw htrim
    constructor
    · intro hout
      unfold updateLiveLocation
      rw [if_neg hguard]
      simp only [hf]
      rw [if_neg (by simpa using htrim)]
      simp only [hw]
      rw [if_neg (by simp [hout])]
    · intro hin
      refine ⟨?_, rfl, rfl, rfl⟩
      unfold updateLiveLocation
      rw [if_neg hguard]
      simp only [hf]
      rw [if_neg (by simpa using htrim)]
      simp only [hw]
      rw [if_pos (by simp [hin])]

/-- Witness for `liveLocation_gates`: an Active day-100 duty with shift
"9am to 5pm" pinged at 10:00 (36000 s) gets only its live coordinates
updated. -/
theorem liveLocation_gates_witness :
    updateLiveLocation [dutyDay100] "B100" (some 7) (some 8) 100 36000 =
      (.updated, replaceFirst (activeTodayPred 100 "B100")
        { dutyDay100 with livexCoord := some 7, liveyCoord := some 8 }
        [dutyDay100]) ∧
    ({ dutyDay100 with livexCoord := some 7, liveyCoord := some 8 }).status =
      dutyDay100.status :=
  by
    have h := (liveLocation_gates [dutyDay100] "B100" 7 8 100 36000 dutyDay100
      (by decide) (by decide)).2.2 ⟨540, 1020, false⟩ (by decide) (by decide)
    have h2 := (h.2 (by decide))
    exact ⟨h2.1, h2.2.1⟩

/-- C5 counterexample: on day 100 the store holds only a day-10 duty, so no
currently Active assignment covers today and the current instant lies outside
any shift window of the record; the claim then demands NOT_FOUND (or
SHIFT_INACTIVE with no write), yet checkIn succeeds and rewrites the
record. -/
theorem checkin_gating_cex :
    (∀ d ∈ [dutyAtFive], activeTodayPred 100 "B100" d = false) ∧
    checkIn constDist [dutyAtFive] "B100" 7 8 9000000000 =
      (.checked true, [checkinMutate 7 8 9000000000 false dutyAtFive]) ∧
    checkinMutate 7 8 9000000000 false dutyAtFive ≠ dutyAtFive := by
  decide

/-- C5 (amended): checkIn selects the first stored record with the given
badge number, with no status, date-coverage or shift-window condition; it
returns NOT_FOUND exactly when no record with that badge exists (leaving the
store unchanged), and otherwise always classifies and rewrites that record —
there is no SHIFT_INACTIVE outcome. -/
theorem checkin_badgeOnly (dist : Option Int → Option Int → Int → Int → Int)
    (store : List Duty) (badge : String) (cx cy t : Int) :
    ((checkIn dist store badge cx cy t).1 = .notFound ↔
      store.find? (fun d => d.badgeNumber == badge) = none) ∧
    ((checkIn dist store badge cx cy t).1 = .notFound →
      (checkIn dist store badge cx cy t).2 = store) ∧
    (∀ d, store.find? (fun d => d.badgeNumber == badge) = some d →
      checkIn dist store badge cx cy t =
        (.checked !(decide (500 < dist d.xCoord d.yCoord cx cy)),
         replaceFirst (fun e => e.badgeNumber == badge)
           (checkinMutate cx cy t
             (decide (500 < dist d.xCoord d.yCoord cx cy)) d) store)) := by
  cases hfind : store.find? (fun d => d.badgeNumber == badge) with
  | none =>
    unfold checkIn
    rw [hfind]
    exact ⟨by simp, fun _ => rfl, fun d hd => by simp at hd⟩
  | some d0 =>
    unfold checkIn
    rw [hfind]
    refine ⟨by simp, by simp, ?_⟩
    intro d hd
    cases hd
    rfl

/-- Witness for `checkin_badgeOnly`: the badge-only lookup matches the stale
day-10 record and the mutation goes through. -/
theorem checkin_badgeOnly_witness :
    checkIn constDist [dutyAtFive] "B100" 1 2 5 =
      (.checked !(decide
        (500 < constDist dutyAtFive.xCoord dutyAtFive.yCoord 1 2)),
       replaceFirst (fun e => e.badgeNumber == "B100")
         (checkinMutate 1 2 5
           (decide (500 < constDist dutyAtFive.xCoord dutyAtFive.yCoord 1 2))
           dutyAtFive) [dutyAtFive]) :=
  (checkin_badgeOnly constDist [dutyAtFive] "B100" 1 2 5).2.2 dutyAtFive
    (by decide)

/-- C10: every successful checkIn overwrites the located record's `dutyDate`
with the request's timestamp and forces its status to "on duty" or
"off duty" (never "Active"), besides setting the live coordinates and
remarks. -/
theorem checkin_overwrites (dist : Option Int → Option Int → Int → Int → Int)
    (store : List Duty) (badge : String) (cx cy t : Int) (d : Duty)
    (hf : store.find? (fun e => e.badgeNumber == badge) = some d) :
    (checkIn dist store badge cx cy t).2 =
      replaceFirst (fun e => e.badgeNumber == badge)
        (checkinMutate cx cy t
          (decide (500 < dist d.xCoord d.yCoord cx cy)) d) store ∧
    (∀ far, (checkinMutate cx cy t far d).dutyDate = some t ∧
      ((checkinMutate cx cy t far d).status = "on duty" ∨
       (checkinMutate cx cy t far d).status = "off duty") ∧
      (checkinMutate cx cy t far d).status ≠ "Active" ∧
      (checkinMutate cx cy t far d).livexCoord = some cx ∧
      (checkinMutate cx cy t far d).liveyCoord = some cy ∧
      ((checkinMutate cx cy t far d).remarks = "" ∨
       (checkinMutate cx cy t far d).remarks = "user is outside range")) := by
  constructor
  · unfold checkIn
    rw [hf]
  · intro far
    cases far <;> simp [checkinMutate]

/-- Witness for `checkin_overwrites`: concrete mutation on the day-100
record. -/
theorem checkin_overwrites_witness :
    (checkIn constDist [dutyDay100] "B100" 3 4 777).2 =
      replaceFirst (fun e => e.badgeNumber == "B100")
        (checkinMutate 3 4 777
          (decide (500 < constDist dutyDay100.xCoord dutyDay100.yCoord 3 4))
          dutyDay100) [dutyDay100] ∧
    (checkinMutate 3 4 777 false dutyDay100).dutyDate = some 777 :=
  ⟨(checkin_overwrites constDist [dutyDay100] "B100" 3 4 777 dutyDay100
      (by decide)).1,
   ((checkin_overwrites constDist [dutyDay100] "B100" 3 4 777 dutyDay100
      (by decide)).2 false).1⟩
